import Mathlib

/-!
Verification of the psychrometric library psychro.py.

The five core functions of the module (atmospheric pressure, saturation
vapor pressure, humidity ratio, saturation-curve slope, specific volume)
are embedded as functions over the real numbers, following the source
line by line.  Python float exponentiation with a non-integer exponent is
modelled by the real power function; np.exp and np.log are Real.exp and
Real.log.
-/

namespace psychro

noncomputable section

/-- Vapor molar mass, kg/kmol (source constant Mv = 18.015_286). -/
def Mv : ℝ := 18.015286

/-- Dry-air molar mass, kg/kmol (source constant Mda = 28.966). -/
def Mda : ℝ := 28.966

/-- Ideal-gas constant, J/(kmol K) (source constant R = 8_314.462_618_153_24). -/
def R : ℝ := 8314.46261815324

/-- Atmospheric pressure as a function of altitude Z in meters (source def p). -/
def p (Z : ℝ) : ℝ := 101325 * (1 - 2.25577e-5 * Z) ^ (5.2559 : ℝ)

/-- Saturation vapor pressure as a function of temperature t in Celsius
(source def pvs), with the local constants of the source kept as let bindings. -/
def pvs (t : ℝ) : ℝ :=
  let T : ℝ := t + 273.15
  let C8 : ℝ := -5.8002206e3
  let C9 : ℝ := 1.3914993e0
  let C10 : ℝ := -4.8640239e-2
  let C11 : ℝ := 4.1764768e-5
  let C12 : ℝ := -1.4452093e-8
  let C13 : ℝ := 6.5459673e0
  Real.exp (C8 / T + C9 + C10 * T + C11 * T ^ 2 + C12 * T ^ 3 + C13 * Real.log T)

/-- Humidity ratio as a function of temperature, relative humidity and
altitude (source def w); Z has default value 0 as in the source. -/
def w (t phi : ℝ) (Z : ℝ := 0) : ℝ :=
  Mv / Mda * phi * pvs t / (p Z - phi * pvs t)

/-- Derivative of the saturation curve at temperature ts (source def wsp);
Z has default value 0 as in the source. -/
def wsp (ts : ℝ) (Z : ℝ := 0) : ℝ :=
  let a : ℝ := 17.2693882
  let b : ℝ := 273.16 - 35.86
  let C : ℝ := 610.78
  let es : ℝ := C * Real.exp (a * ts / (ts + b))
  Mv / Mda * a * b * p Z * es / ((ts + b) ^ 2 * (p Z - es) ^ 2)

/-- Specific volume as a function of temperature, humidity ratio and
altitude (source def v); Z has default value 0 as in the source. -/
def v (t w : ℝ) (Z : ℝ := 0) : ℝ :=
  R / Mv * (Mv / Mda + w) * (t + 273.15) / p Z

/-- The saturation vapor pressure is always positive. -/
theorem pvs_pos (t : ℝ) : 0 < pvs t := Real.exp_pos _

/-- Atmospheric pressure at sea level is exactly 101325 Pa. -/
theorem p_zero : p 0 = 101325 := by
  have h : (1 : ℝ) - 2.25577e-5 * 0 = 1 := by norm_num
  rw [p, h, Real.one_rpow, mul_one]

/-- Claim C1: for every temperature t, relative humidity phi and altitude Z,
the humidity ratio w equals (Mv/Mda) * phi * pvs t / (p Z - phi * pvs t)
with Mv = 18.015286 and Mda = 28.966, and omitting the altitude argument
gives the value at Z = 0. -/
theorem claim_C1_w_formula (t phi Z : ℝ) :
    w t phi Z = 18.015286 / 28.966 * phi * pvs t / (p Z - phi * pvs t) ∧
      w t phi = w t phi 0 := by
  constructor
  · simp only [w, Mv, Mda]
  · rfl

/-- Claim C5: for every saturation temperature ts and altitude Z, wsp equals
(Mv/Mda) * a * b * p Z * es / ((ts+b)^2 * (p Z - es)^2) with
es = 610.78 * exp (a * ts / (ts + b)), a = 17.2693882, b = 273.16 - 35.86;
the closed form involves only the pressure function p, never pvs. -/
theorem claim_C5_wsp_formula (ts Z : ℝ) :
    wsp ts Z = 18.015286 / 28.966 * 17.2693882 * (273.16 - 35.86) * p Z *
      (610.78 * Real.exp (17.2693882 * ts / (ts + (273.16 - 35.86)))) /
      ((ts + (273.16 - 35.86)) ^ 2 *
        (p Z - 610.78 * Real.exp (17.2693882 * ts / (ts + (273.16 - 35.86)))) ^ 2) := by
  simp only [wsp, Mv, Mda]

/-- Claim C3, amended: pvs converts to T = t + 273.15 and applies the
six-constant correlation, with third constant C10 = -0.048640239 (the
source value; the claim stated -0.04864239). -/
theorem claim_C3_amended_pvs_formula (t : ℝ) :
    pvs t = Real.exp (-5800.2206 / (t + 273.15) + 1.3914993 +
      -0.048640239 * (t + 273.15) + 4.1764768e-5 * (t + 273.15) ^ 2 +
      -1.4452093e-8 * (t + 273.15) ^ 3 + 6.5459673 * Real.log (t + 273.15)) := by
  simp only [pvs]

/-- Claim C3, counterexample: at t = 0 the value of pvs differs from the
claimed formula with constant C10 = -0.04864239. -/
theorem claim_C3_counterexample :
    pvs 0 ≠ Real.exp (-5800.2206 / 273.15 + 1.3914993 +
      -0.04864239 * 273.15 + 4.1764768e-5 * 273.15 ^ 2 +
      -1.4452093e-8 * 273.15 ^ 3 + 6.5459673 * Real.log 273.15) := by
  have h0 : (0 : ℝ) + 273.15 = 273.15 := by norm_num
  simp only [pvs, h0]
  rw [Ne, Real.exp_eq_exp]
  intro h
  nlinarith [h]

/-- Claim C4, amended: the specific volume function v returns
(R/Mv) * (Mv/Mda + w) * (t + 273.15) / p Z with R = 8314.46261815324 (the
source value; the claim stated the truncation 8314.462618153), and its
closed form involves only the pressure function p, never pvs. -/
theorem claim_C4_amended_v_formula (t wv Z : ℝ) :
    v t wv Z = 8314.46261815324 / 18.015286 * (18.015286 / 28.966 + wv) *
      (t + 273.15) / p Z := by
  simp only [v, R, Mv, Mda]

/-- Claim C4, counterexample: at t = 0, w = 0, Z = 0 the specific volume
differs from the formula evaluated with R = 8314.462618153. -/
theorem claim_C4_counterexample :
    v 0 0 0 ≠ 8314.462618153 / 18.015286 * (18.015286 / 28.966 + 0) *
      (0 + 273.15) / p 0 := by
  simp only [v, R, Mv, Mda, p_zero]
  norm_num

/-- Numeric bound used to place Real.log 273.15 above 5. -/
theorem exp_five_lt : Real.exp 5 < 148.42 := by
  have h9 : Real.exp 1 < 2.7182818286 := Real.exp_one_lt_d9
  have h5 : Real.exp 5 = Real.exp 1 ^ (5 : ℕ) := by
    rw [← Real.exp_nat_mul]
    norm_num
  rw [h5]
  calc Real.exp 1 ^ (5 : ℕ) < 2.7182818286 ^ (5 : ℕ) :=
        pow_lt_pow_left₀ h9 (Real.exp_pos 1).le (by norm_num)
    _ < 148.42 := by norm_num

/-- Numeric bound used to place Real.log 273.15 below 6. -/
theorem lt_exp_six : (273.15 : ℝ) < Real.exp 6 := by
  have h1 : (2.7182818283 : ℝ) < Real.exp 1 := Real.exp_one_gt_d9
  have h6 : Real.exp 6 = Real.exp 1 ^ (6 : ℕ) := by
    rw [← Real.exp_nat_mul]
    norm_num
  rw [h6]
  calc (273.15 : ℝ) < 2.7182818283 ^ (6 : ℕ) := by norm_num
    _ < Real.exp 1 ^ (6 : ℕ) := pow_lt_pow_left₀ h1 (by norm_num) (by norm_num)

/-- The natural logarithm of 273.15 lies strictly between 5 and 6. -/
theorem log_273_bounds : 5 < Real.log 273.15 ∧ Real.log 273.15 < 6 := by
  constructor
  · rw [Real.lt_log_iff_exp_lt (by norm_num : (0:ℝ) < 273.15)]
    linarith [exp_five_lt]
  · rw [Real.log_lt_iff_lt_exp (by norm_num : (0:ℝ) < 273.15)]
    exact lt_exp_six

/-- The saturation vapor pressure at 0 Celsius is at least 1 Pa. -/
theorem one_le_pvs_zero : 1 ≤ pvs 0 := by
  have h0 : (0 : ℝ) + 273.15 = 273.15 := by norm_num
  simp only [pvs, h0]
  apply Real.one_le_exp
  nlinarith [log_273_bounds.1]

/-- Claim C2: at t = 0, phi = 200000, Z = 0 the saturation condition
phi * pvs t at or above p Z holds, yet w evaluates to a negative number:
the source has no domain guard and returns the negative value silently. -/
theorem claim_C2_w_negative_no_error :
    p 0 ≤ 200000 * pvs 0 ∧ w 0 200000 0 < 0 := by
  have h1 := one_le_pvs_zero
  have hp0 := p_zero
  constructor
  · rw [hp0]; nlinarith
  · rw [w]
    apply div_neg_of_pos_of_neg
    · have : (0:ℝ) < Mv / Mda := by rw [Mv, Mda]; norm_num
      nlinarith [pvs_pos 0]
    · rw [hp0]; nlinarith

/-- Claim C6: on the altitude range [-500, 10000] the atmospheric pressure
is strictly decreasing, and its sea-level value is exactly 101325 Pa. -/
theorem claim_C6_p_decreasing_sea_level (Z1 Z2 : ℝ) (h1 : -500 ≤ Z1)
    (h12 : Z1 < Z2) (h2 : Z2 ≤ 10000) : p Z2 < p Z1 ∧ p 0 = 101325 := by
  refine ⟨?_, p_zero⟩
  rw [p, p]
  have hb2 : (0:ℝ) ≤ 1 - 2.25577e-5 * Z2 := by nlinarith
  have hlt : 1 - 2.25577e-5 * Z2 < 1 - 2.25577e-5 * Z1 := by nlinarith
  have := Real.rpow_lt_rpow hb2 hlt (by norm_num : (0:ℝ) < 5.2559)
  nlinarith [this]

/-- Witness for claim C6 at Z1 = 0, Z2 = 1. -/
theorem claim_C6_witness :
    -500 ≤ (0:ℝ) ∧ (0:ℝ) < 1 ∧ (1:ℝ) ≤ 10000 ∧ (p 1 < p 0 ∧ p 0 = 101325) :=
  ⟨by norm_num, by norm_num, by norm_num,
    claim_C6_p_decreasing_sea_level 0 1 (by norm_num) (by norm_num) (by norm_num)⟩

/-- Claim C10: for temperatures above absolute zero and positive
atmospheric pressure, the specific volume is strictly increasing in the
humidity-ratio argument. -/
theorem claim_C10_v_mono_in_w (t Z w1 w2 : ℝ) (ht : -273.15 < t)
    (hp : 0 < p Z) (h12 : w1 < w2) : v t w1 Z < v t w2 Z := by
  rw [v, v, div_lt_div_iff_of_pos_right hp]
  have hk : (0:ℝ) < R / Mv := by rw [R, Mv]; norm_num
  nlinarith [mul_pos (mul_pos hk (sub_pos.mpr h12)) (by linarith : (0:ℝ) < t + 273.15)]

/-- Witness for claim C10 at t = 0, Z = 0, w1 = 0, w2 = 1. -/
theorem claim_C10_witness :
    -273.15 < (0:ℝ) ∧ 0 < p 0 ∧ (0:ℝ) < 1 ∧ v 0 0 0 < v 0 1 0 :=
  ⟨by norm_num, by rw [p_zero]; norm_num, by norm_num,
    claim_C10_v_mono_in_w 0 0 0 1 (by norm_num) (by rw [p_zero]; norm_num) (by norm_num)⟩

/-- Claim C8, counterexample: at t = 0, Z = 0 the pair
phi1 = (p 0 / pvs 0) / 2 < phi2 = 2 * (p 0 / pvs 0) violates monotonicity
of w in phi: phi1 lies below the saturation pole and phi2 above it, so
w jumps from a positive to a negative value. -/
theorem claim_C8_counterexample :
    p 0 / pvs 0 / 2 < 2 * (p 0 / pvs 0) ∧
      w 0 (2 * (p 0 / pvs 0)) 0 < w 0 (p 0 / pvs 0 / 2) 0 := by
  have hP : (0:ℝ) < pvs 0 := pvs_pos 0
  have hp0 := p_zero
  have hq : (0:ℝ) < p 0 / pvs 0 := by rw [hp0]; positivity
  have hPne : pvs 0 ≠ 0 := ne_of_gt hP
  have hpne : p 0 ≠ 0 := by rw [hp0]; norm_num
  have hMda : (Mda : ℝ) ≠ 0 := by rw [Mda]; norm_num
  have hv1 : w 0 (p 0 / pvs 0 / 2) 0 = Mv / Mda := by
    have hden : p 0 - p 0 / pvs 0 / 2 * pvs 0 = p 0 / 2 := by
      field_simp
      ring
    rw [w, hden, div_eq_iff (by rw [hp0]; norm_num : p 0 / 2 ≠ 0)]
    field_simp
    ring
  have hv2 : w 0 (2 * (p 0 / pvs 0)) 0 = -2 * (Mv / Mda) := by
    have hden : p 0 - 2 * (p 0 / pvs 0) * pvs 0 = -(p 0) := by
      field_simp
      ring
    rw [w, hden, div_eq_iff (by rw [hp0]; norm_num : -(p 0) ≠ 0)]
    field_simp
    ring
  refine ⟨by linarith, ?_⟩
  rw [hv1, hv2, Mv, Mda]
  norm_num

/-- Claim C8, amended: w is monotonically increasing in phi on the
physically meaningful side of the saturation pole: for fixed t and Z, if
0 ≤ phi1 < phi2 and phi2 * pvs t < p Z then w t phi1 Z ≤ w t phi2 Z. -/
theorem claim_C8_amended_w_mono (t Z phi1 phi2 : ℝ) (h0 : 0 ≤ phi1)
    (h12 : phi1 < phi2) (hsat : phi2 * pvs t < p Z) :
    w t phi1 Z ≤ w t phi2 Z := by
  have hP : (0:ℝ) < pvs t := pvs_pos t
  have hphi2 : 0 < phi2 := lt_of_le_of_lt h0 h12
  have hpZ : 0 < p Z := lt_of_le_of_lt (by positivity) hsat
  have hD2 : 0 < p Z - phi2 * pvs t := by linarith
  have hD1 : 0 < p Z - phi1 * pvs t := by nlinarith
  rw [w, w, div_le_div_iff₀ hD1 hD2]
  have hk : (0:ℝ) < Mv / Mda := by rw [Mv, Mda]; norm_num
  nlinarith [mul_pos (mul_pos (mul_pos hk hP) hpZ) (sub_pos.mpr h12)]

/-- Witness for claim C8 at t = 0, Z = 0, phi1 = 0, phi2 = 1 (the bound
pvs 0 < 101325 follows from log 273.15 < 6). -/
theorem claim_C8_witness :
    0 ≤ (0:ℝ) ∧ (0:ℝ) < 1 ∧ 1 * pvs 0 < p 0 ∧ w 0 0 0 ≤ w 0 1 0 := by
  have hlt : 1 * pvs 0 < p 0 := by
    have h0 : (0 : ℝ) + 273.15 = 273.15 := by norm_num
    rw [p_zero, one_mul]
    simp only [pvs, h0]
    have h9 : Real.exp (-5.8002206e3 / 273.15 + 1.3914993e0 +
        -4.8640239e-2 * 273.15 + 4.1764768e-5 * 273.15 ^ 2 +
        -1.4452093e-8 * 273.15 ^ 3 + 6.5459673e0 * Real.log 273.15) <
        Real.exp 9 := by
      rw [Real.exp_lt_exp]
      nlinarith [log_273_bounds.2]
    have he9 : Real.exp 9 < 101325 := by
      have h1 : Real.exp 1 < 2.7182818286 := Real.exp_one_lt_d9
      have h9e : Real.exp 9 = Real.exp 1 ^ (9 : ℕ) := by
        rw [← Real.exp_nat_mul]
        norm_num
      rw [h9e]
      calc Real.exp 1 ^ (9 : ℕ) < 2.7182818286 ^ (9 : ℕ) :=
            pow_lt_pow_left₀ h1 (Real.exp_pos 1).le (by norm_num)
        _ < 101325 := by norm_num
    linarith
  exact ⟨le_refl 0, by norm_num, hlt,
    claim_C8_amended_w_mono 0 0 0 1 (le_refl 0) (by norm_num) hlt⟩

/-- Claim C9: for every saturation temperature in [-10, 50] the slope of
the saturation curve at sea level is strictly positive. -/
theorem claim_C9_wsp_pos (ts : ℝ) (h1 : -10 ≤ ts) (h2 : ts ≤ 50) :
    0 < wsp ts 0 := by
  simp only [wsp]
  have hb : (0:ℝ) < ts + (273.16 - 35.86) := by linarith
  have hp0 := p_zero
  have hexp : Real.exp (17.2693882 * ts / (ts + (273.16 - 35.86))) <
      Real.exp 5 := by
    rw [Real.exp_lt_exp]
    rw [div_lt_iff₀ hb]
    nlinarith
  have hes : 610.78 * Real.exp (17.2693882 * ts / (ts + (273.16 - 35.86))) <
      p 0 := by
    rw [hp0]
    nlinarith [exp_five_lt, Real.exp_pos (17.2693882 * ts / (ts + (273.16 - 35.86)))]
  apply div_pos
  · have hkp : (0:ℝ) < Mv / Mda * 17.2693882 * (273.16 - 35.86) := by
      rw [Mv, Mda]; norm_num
    have hppos : (0:ℝ) < p 0 := by rw [hp0]; norm_num
    have hepos := Real.exp_pos (17.2693882 * ts / (ts + (273.16 - 35.86)))
    positivity
  · apply mul_pos
    · positivity
    · have : 0 < p 0 - 610.78 * Real.exp (17.2693882 * ts / (ts + (273.16 - 35.86))) := by
        linarith
      positivity

/-- Witness for claim C9 at ts = 20. -/
theorem claim_C9_witness :
    -10 ≤ (20:ℝ) ∧ (20:ℝ) ≤ 50 ∧ 0 < wsp 20 0 :=
  ⟨by norm_num, by norm_num, claim_C9_wsp_pos 20 (by norm_num) (by norm_num)⟩

/-- The exponent of the saturation-vapor-pressure correlation is strictly
increasing in absolute temperature on [273.15, 373.15] K: the reciprocal,
quadratic and logarithmic terms dominate the decreasing linear and cubic
terms on this range. -/
theorem pvs_exponent_strict_mono (T1 T2 : ℝ) (hT1l : 273.15 ≤ T1)
    (hTlt : T1 < T2) (hT2u : T2 ≤ 373.15) :
    -5.8002206e3 / T1 + 1.3914993e0 + -4.8640239e-2 * T1 +
      4.1764768e-5 * T1 ^ 2 + -1.4452093e-8 * T1 ^ 3 +
      6.5459673e0 * Real.log T1 <
    -5.8002206e3 / T2 + 1.3914993e0 + -4.8640239e-2 * T2 +
      4.1764768e-5 * T2 ^ 2 + -1.4452093e-8 * T2 ^ 3 +
      6.5459673e0 * Real.log T2 := by
  have hT1p : (0:ℝ) < T1 := by linarith
  have hT2p : (0:ℝ) < T2 := by linarith
  have hT1u : T1 ≤ 373.15 := by linarith
  have hT2l : (273.15:ℝ) ≤ T2 := by linarith
  have hT2ne : T2 ≠ 0 := ne_of_gt hT2p
  have hT1ne : T1 ≠ 0 := ne_of_gt hT1p
  have hd : (0:ℝ) < T2 - T1 := by linarith
  have hdle : (0:ℝ) ≤ T2 - T1 := hd.le
  have hlog : (T2 - T1) / T2 ≤ Real.log T2 - Real.log T1 := by
    have h := Real.log_le_sub_one_of_pos (div_pos hT1p hT2p)
    rw [Real.log_div hT1ne hT2ne] at h
    have hq : T1 / T2 - 1 = -((T2 - T1) / T2) := by
      field_simp
    rw [hq] at h
    linarith
  have hmulpos : (0:ℝ) < T1 * T2 := mul_pos hT1p hT2p
  have hmul : T1 * T2 ≤ 373.15 * 373.15 := by nlinarith
  have hinv : (0.0416:ℝ) ≤ 5800.2206 / (T1 * T2) := by
    rw [le_div_iff₀ hmulpos]
    nlinarith
  have hid : -5.8002206e3 / T2 - -5.8002206e3 / T1 =
      (T2 - T1) * (5800.2206 / (T1 * T2)) := by
    field_simp
    ring
  have hA : (T2 - T1) * 0.0416 ≤ -5.8002206e3 / T2 - -5.8002206e3 / T1 := by
    rw [hid]
    exact mul_le_mul_of_nonneg_left hinv hdle
  have hsum : (546.3:ℝ) ≤ T1 + T2 := by linarith
  have hp2 : (T2 - T1) * 546.3 ≤ (T2 - T1) * (T1 + T2) :=
    mul_le_mul_of_nonneg_left hsum hdle
  have hsq : T1 ^ 2 + T1 * T2 + T2 ^ 2 ≤ 3 * (373.15 * 373.15) := by nlinarith
  have hp3 : (T2 - T1) * (T1 ^ 2 + T1 * T2 + T2 ^ 2) ≤
      (T2 - T1) * (3 * (373.15 * 373.15)) :=
    mul_le_mul_of_nonneg_left hsq hdle
  have hstep : 0.00267 * (T2 - T1) ≤ (T2 - T1) / T2 := by
    rw [le_div_iff₀ hT2p]
    nlinarith
  have hp4 : 0.00267 * (T2 - T1) ≤ Real.log T2 - Real.log T1 :=
    le_trans hstep hlog
  linarith [hA, hp2, hp3, hp4, hd]

/-- Claim C7: the saturation vapor pressure is strictly increasing in
temperature on the range [0, 100] Celsius. -/
theorem claim_C7_pvs_strict_mono (t1 t2 : ℝ) (h0 : 0 ≤ t1) (h12 : t1 < t2)
    (h100 : t2 ≤ 100) : pvs t1 < pvs t2 := by
  simp only [pvs]
  rw [Real.exp_lt_exp]
  exact pvs_exponent_strict_mono (t1 + 273.15) (t2 + 273.15)
    (by linarith) (by linarith) (by linarith)

/-- Witness for claim C7 at t1 = 0, t2 = 1. -/
theorem claim_C7_witness :
    0 ≤ (0:ℝ) ∧ (0:ℝ) < 1 ∧ (1:ℝ) ≤ 100 ∧ pvs 0 < pvs 1 :=
  ⟨le_refl 0, by norm_num, by norm_num,
    claim_C7_pvs_strict_mono 0 1 (le_refl 0) (by norm_num) (by norm_num)⟩

end

end psychro
